import Mathlib

/-!
Shallow embedding of `skhyper/process/_process.py` (class `Process` and the
accessor classes `_AccessImage`, `_AccessSpectrum`).

A numpy `ndarray` is modelled as a shape together with its row-major (C-order)
flat buffer of rational numbers; numpy floating point values are modelled
exactly by `ℚ`.  Fallible numpy operations (`np.mean` with an out-of-bounds
axis, `np.reshape` with a size mismatch, indexing out of range) return
`Except PyErr`, where `PyErr` records the Python exception class and message.
-/

/-- A numpy ndarray: shape together with the row-major flat data buffer. -/
structure NpArray where
  shape : List Nat
  data : List ℚ
deriving DecidableEq, Repr

/-- A raised Python exception: its class name and message. -/
structure PyErr where
  kind : String
  msg : String
deriving DecidableEq, Repr

/-- An input to `Process.__init__`: either a numpy array, or some non-array
Python object (e.g. a plain nested list). -/
inductive PyInput where
  | ndarray (a : NpArray)
  | pylist
deriving DecidableEq, Repr

/-- Row-major flattening of a multi-index for a given shape
(index `i` on the leading axis strides by the product of the trailing axes). -/
def flatIdx : List Nat → List Nat → Nat
  | _ :: ss, i :: is => i * ss.prod + flatIdx ss is
  | _, _ => 0

/-- All multi-indices of a shape, enumerated in row-major (C) order. -/
def allIdx : List Nat → List (List Nat)
  | [] => [[]]
  | s :: ss => (List.range s).flatMap (fun i => (allIdx ss).map (i :: ·))

/-- Insert a coordinate at position `k` of a multi-index. -/
def insIdx : Nat → Nat → List Nat → List Nat
  | 0, x, l => x :: l
  | _ + 1, x, [] => [x]
  | n + 1, x, y :: l => y :: insIdx n x l

/-- Element of an array at a multi-index (0 outside the buffer). -/
def NpArray.get (a : NpArray) (idx : List Nat) : ℚ :=
  a.data.getD (flatIdx a.shape idx) 0

/-- Maximum element of a nonempty buffer (helper for `npMax`; the 0 default
is never reached on a well-formed array of nonzero size). -/
def listMax (l : List ℚ) : ℚ := l.foldl max (l.headD 0)

/-- Semantics of `np.max`: raises `ValueError` on a zero-size array (a shape
with a zero extent), otherwise returns the maximum element. -/
def npMax (a : NpArray) : Except PyErr ℚ :=
  if a.shape.prod = 0 then
    .error ⟨"ValueError",
      "zero-size array to reduction operation maximum which has no identity"⟩
  else .ok (listMax a.data)

/-- Maximum absolute value over the buffer (used only by the spec-side
scaling definition, see `specScaleMaxAbs`). -/
def maxAbsList (l : List ℚ) : ℚ := l.foldl (fun m x => max m |x|) 0

/-- Mean reduction along axis `k` (assumes `k < rank`): the result has the
shape with axis `k` erased, and each entry is the average over that axis. -/
def npMeanAxis (a : NpArray) (k : Nat) : NpArray :=
  let newShape := a.shape.eraseIdx k
  let n := a.shape.getD k 1
  { shape := newShape
    data := (allIdx newShape).map (fun idx =>
      (((List.range n).map (fun j => a.get (insIdx k j idx))).sum) / (n : ℚ)) }

/-- Semantics of `np.mean(a, k)`: raises `AxisError` when `k` is not an axis
of `a` (this happens in the accessors when an integer index has dropped an
axis), otherwise reduces along axis `k`. -/
def npMean (a : NpArray) (k : Nat) : Except PyErr NpArray :=
  if k < a.shape.length then .ok (npMeanAxis a k)
  else .error ⟨"AxisError", "axis out of bounds"⟩

/-- Semantics of `np.squeeze`: remove all axes of extent 1.  The row-major
buffer is unchanged by removing singleton axes. -/
def npSqueeze (a : NpArray) : NpArray :=
  { shape := a.shape.filter (fun s => s ≠ 1), data := a.data }

/-- Semantics of `np.reshape` (C order): the flat buffer is kept, the shape is
replaced; raises `ValueError` on a size mismatch. -/
def npReshape (a : NpArray) (s : List Nat) : Except PyErr NpArray :=
  if a.shape.prod = s.prod then .ok { shape := s, data := a.data }
  else .error ⟨"ValueError", "cannot reshape array"⟩

/-- An index expression into the leading axis of an array, as passed to
`__getitem__`: the full slice `[:]`, a slice `[start:stop]`, or a single
integer index (which drops the leading axis). -/
inductive Idx where
  | full
  | slc (start stop : Nat)
  | int (i : Nat)
deriving DecidableEq, Repr

/-- Semantics of numpy basic indexing `a[item]` on the leading axis. -/
def idxApply (a : NpArray) : Idx → Except PyErr NpArray
  | .full => .ok a
  | .int i =>
    match a.shape with
    | [] => .error ⟨"IndexError", "too many indices"⟩
    | s :: ss =>
      if i < s then
        .ok { shape := ss, data := (a.data.drop (i * ss.prod)).take ss.prod }
      else .error ⟨"IndexError", "index out of bounds"⟩
  | .slc start stop =>
    match a.shape with
    | [] => .error ⟨"IndexError", "too many indices"⟩
    | s :: ss =>
      let st := min start s
      let sp := min stop s
      let len := sp - st
      .ok { shape := len :: ss, data := (a.data.drop (st * ss.prod)).take (len * ss.prod) }

/-- The attributes computed by `Process._data_checks`. -/
structure CheckInfo where
  shape : List Nat
  n_dimension : Nat
  n_samples : Nat
  n_features : Nat
deriving DecidableEq, Repr

/-- `Process._data_checks`: rejects non-ndarray input, rank not in 3 or 4,
and `n_samples ≤ n_features`.  Every failure raises the Python builtin
`TypeError` (the source has no dedicated exception classes). -/
def dataChecks : PyInput → Except PyErr CheckInfo
  | .pylist => .error ⟨"TypeError", "Data must be a numpy array"⟩
  | .ndarray a =>
    let shape := a.shape
    let nd := shape.length
    if nd ≠ 3 ∧ nd ≠ 4 then
      .error ⟨"TypeError", "Data must be 3- or 4- dimensional."⟩
    else if nd = 3 then
      let ns := shape.getD 0 0 * shape.getD 1 0
      let nf := shape.getD 2 0
      if ¬ ns > nf then
        .error ⟨"TypeError", "The number of samples must be greater than the number of features"⟩
      else .ok ⟨shape, nd, ns, nf⟩
    else
      let ns := shape.getD 0 0 * shape.getD 1 0 * shape.getD 2 0
      let nf := shape.getD 3 0
      if ¬ ns > nf then
        .error ⟨"TypeError", "The number of samples must be greater than the number of features"⟩
      else .ok ⟨shape, nd, ns, nf⟩

/-- `Process._data_scale`: `self.data = self.data / np.abs(np.max(self.data))`.
The `np.max` call raises `ValueError` on a zero-size array (reachable, since
shapes like (x,y,0) pass validation).  Note the source divides by the
absolute value of the maximum element, `abs(max(X))`, not by the maximum
absolute value `max(abs(X))`. -/
def dataScale (a : NpArray) : Except PyErr NpArray :=
  match npMax a with
  | .error e => .error e
  | .ok m => .ok { shape := a.shape, data := a.data.map (fun x => x / |m|) }

/-- Modelled from the spec: scaling that divides every element by the global
maximum absolute value `M = max(abs(X))`, as the spec's words describe.
Defined only to be compared with the source's `dataScale`. -/
def specScaleMaxAbs (a : NpArray) : NpArray :=
  { shape := a.shape, data := a.data.map (fun x => x / maxAbsList a.data) }

/-- `Process._data_flatten`: reshape to `(n_samples, n_features)`.
The `else` branch (rank not 3 or 4) leaves `flat` as `None` in the source and
is unreachable after `_data_checks`; it is modelled as an error. -/
def dataFlatten (a : NpArray) (shape : List Nat) (nd : Nat) : Except PyErr NpArray :=
  if nd = 3 then
    npReshape a [shape.getD 0 0 * shape.getD 1 0, shape.getD 2 0]
  else if nd = 4 then
    npReshape a [shape.getD 0 0 * shape.getD 1 0 * shape.getD 2 0, shape.getD 3 0]
  else .error ⟨"AttributeError", "flat left as None"⟩

/-- `Process._data_mean`: `mean_image = squeeze(mean(data, last axis))` and
`mean_spectrum = squeeze(mean(...mean(data, innermost spatial)..., 0))`.
The unreachable rank fall-through is modelled as an error. -/
def dataMean (a : NpArray) (nd : Nat) : Except PyErr (NpArray × NpArray) :=
  if nd = 3 then
    match npMean a 2 with
    | .error e => .error e
    | .ok mi =>
      match npMean a 1 with
      | .error e => .error e
      | .ok s1 =>
        match npMean s1 0 with
        | .error e => .error e
        | .ok s0 => .ok (npSqueeze mi, npSqueeze s0)
  else if nd = 4 then
    match npMean a 3 with
    | .error e => .error e
    | .ok mi =>
      match npMean a 2 with
      | .error e => .error e
      | .ok s2 =>
        match npMean s2 1 with
        | .error e => .error e
        | .ok s1 =>
          match npMean s1 0 with
          | .error e => .error e
          | .ok s0 => .ok (npSqueeze mi, npSqueeze s0)
  else .error ⟨"AttributeError", "mean attributes left as None"⟩

/-- `_AccessImage.__getitem__`: slice the stored array, then
`squeeze(mean(sub, 2))` for 3-D cubes or `squeeze(mean(sub, 3))` for 4-D
cubes.  The axis number is fixed by the dimensionality of the full cube, not
of the sliced sub-array. -/
def accessImageGet (a : NpArray) (nd : Nat) (idx : Idx) : Except PyErr NpArray :=
  match idxApply a idx with
  | .error e => .error e
  | .ok sub =>
    if nd = 3 then
      match npMean sub 2 with
      | .error e => .error e
      | .ok m => .ok (npSqueeze m)
    else if nd = 4 then
      match npMean sub 3 with
      | .error e => .error e
      | .ok m => .ok (npSqueeze m)
    else .error ⟨"TypeError", "getitem fell through, returning None"⟩

/-- `_AccessSpectrum.__getitem__`: slice the stored array, then successively
mean-reduce axes `1, 0` (3-D cube) or `2, 1, 0` (4-D cube) and squeeze.
Axis numbers are fixed by the dimensionality of the full cube. -/
def accessSpectrumGet (a : NpArray) (nd : Nat) (idx : Idx) : Except PyErr NpArray :=
  match idxApply a idx with
  | .error e => .error e
  | .ok sub =>
    if nd = 3 then
      match npMean sub 1 with
      | .error e => .error e
      | .ok s1 =>
        match npMean s1 0 with
        | .error e => .error e
        | .ok s0 => .ok (npSqueeze s0)
    else if nd = 4 then
      match npMean sub 2 with
      | .error e => .error e
      | .ok s2 =>
        match npMean s2 1 with
        | .error e => .error e
        | .ok s1 =>
          match npMean s1 0 with
          | .error e => .error e
          | .ok s0 => .ok (npSqueeze s0)
    else .error ⟨"TypeError", "getitem fell through, returning None"⟩

/-- The fully constructed `Process` object: the (possibly scaled) stored
array plus all attributes set during `__init__`.  The `image` and `spectrum`
accessors hold `(data, shape, n_dimension)` of this record; their
`__getitem__` is `accessImageGet` / `accessSpectrumGet`. -/
structure Process where
  data : NpArray
  shape : List Nat
  n_dimension : Nat
  n_samples : Nat
  n_features : Nat
  flat : NpArray
  mean_image : NpArray
  mean_spectrum : NpArray
deriving DecidableEq, Repr

/-- `Process.__init__`: run `_data_checks`, then (optionally) `_data_scale`,
then `_data_flatten`, `_data_mean`, `_data_access`, in that order; a raise
aborts construction.  The `.pylist` arm after a successful check is dead code
(`_data_checks` already rejected it). -/
def processInit (X : PyInput) (scale : Bool) : Except PyErr Process :=
  match dataChecks X, X with
  | .error e, _ => .error e
  | .ok _, .pylist => .error ⟨"TypeError", "Data must be a numpy array"⟩
  | .ok c, .ndarray a0 =>
    match (if scale then dataScale a0 else .ok a0) with
    | .error e => .error e
    | .ok a =>
      match dataFlatten a c.shape c.n_dimension with
      | .error e => .error e
      | .ok fl =>
        match dataMean a c.n_dimension with
        | .error e => .error e
        | .ok (mi, ms) =>
          .ok ⟨a, c.shape, c.n_dimension, c.n_samples, c.n_features, fl, mi, ms⟩

/-- Exception kind of an `Except` result (`none` when no exception). -/
def errKind {α : Type} : Except PyErr α → Option String
  | .error e => some e.kind
  | .ok _ => none

/-- Shape of a slice or mean result, `none` when the operation raised. -/
def resShape : Except PyErr NpArray → Option (List Nat)
  | .ok r => some r.shape
  | .error _ => none

/-- A heap of array objects, for stating what construction allocates and
what it leaves untouched.  An array reference is an index into the heap. -/
abbrev Store := List NpArray

/-- The default array an out-of-range read returns (never reached by the
theorems below). -/
def emptyArr : NpArray := ⟨[], []⟩

/-- Read the array behind a reference. -/
def storeRead (st : Store) (r : Nat) : NpArray := st.getD r emptyArr

/-- References held by the constructed object in the heap model. -/
structure ProcRefs where
  dataRef : Nat
  flatRef : Nat
  miRef : Nat
  msRef : Nat
deriving DecidableEq, Repr

/-- Heap-level model of `Process.__init__` on an ndarray argument held at
reference `r`.  Mirrors the source: `_data_checks` only reads; the scaling
statement `self.data = self.data / ...` allocates a fresh array (the `/`
operator returns a new ndarray) and rebinds `self.data` to it; `_data_flatten`
and `_data_mean` likewise allocate their results.  The heap after the call is
returned alongside the outcome, also when a raise aborts construction. -/
def processInitStore (st : Store) (r : Nat) (scale : Bool) :
    Store × Except PyErr ProcRefs :=
  match dataChecks (.ndarray (storeRead st r)) with
  | .error e => (st, .error e)
  | .ok c =>
    match (if scale then dataScale (storeRead st r) else .ok (storeRead st r)) with
    | .error e => (st, .error e)
    | .ok A =>
      let step := if scale then (st ++ [A], st.length) else (st, r)
      let st1 := step.1
      let r1 := step.2
      match dataFlatten (storeRead st1 r1) c.shape c.n_dimension with
      | .error e => (st1, .error e)
      | .ok fl =>
        let st2 := st1 ++ [fl]
        match dataMean (storeRead st1 r1) c.n_dimension with
        | .error e => (st2, .error e)
        | .ok pr =>
          (st2 ++ [pr.1, pr.2], .ok ⟨r1, st1.length, st2.length, st2.length + 1⟩)

/-- Mean reduction leaves the shape with the reduced axis erased. -/
theorem npMeanAxis_shape (a : NpArray) (k : Nat) :
    (npMeanAxis a k).shape = a.shape.eraseIdx k := rfl

/-- Mean reduction succeeds on any axis below the rank. -/
theorem npMean_ok (a : NpArray) (k : Nat) (h : k < a.shape.length) :
    npMean a k = .ok (npMeanAxis a k) := by
  simp [npMean, h]

/-- Scaling, when it succeeds, does not change the shape. -/
theorem dataScale_ok_shape (a b : NpArray) (h : dataScale a = .ok b) :
    b.shape = a.shape := by
  cases hm : npMax a with
  | error e => simp [dataScale, hm] at h
  | ok m =>
    simp [dataScale, hm] at h
    rw [← h]

/-- The optionally scaled array, when the scale step succeeds, has the shape
of the input. -/
theorem scaled_ok_shape (a A : NpArray) (scale : Bool)
    (h : (if scale then dataScale a else .ok a) = .ok A) : A.shape = a.shape := by
  cases scale with
  | false =>
    simp only [Bool.false_eq_true, if_false, Except.ok.injEq] at h
    rw [← h]
  | true => exact dataScale_ok_shape a A (by simpa using h)

/-- Scaling succeeds on an array of nonzero size. -/
theorem dataScale_ok_of_prod (a : NpArray) (h : a.shape.prod ≠ 0) :
    dataScale a = .ok ⟨a.shape, a.data.map (fun x => x / |listMax a.data|)⟩ := by
  simp [dataScale, npMax, h]

/-- Scaling fails with the ValueError from np.max on a zero-size array. -/
theorem dataScale_error_of_zero (a : NpArray) (h : a.shape.prod = 0) :
    dataScale a = .error ⟨"ValueError",
      "zero-size array to reduction operation maximum which has no identity"⟩ := by
  simp [dataScale, npMax, h]

/-- Validation succeeds on a 3-D array with more samples than features. -/
theorem dataChecks_3d (a : NpArray) (x y c : Nat)
    (h : a.shape = [x, y, c]) (hlt : c < x * y) :
    dataChecks (.ndarray a) = .ok ⟨[x, y, c], 3, x * y, c⟩ := by
  simp [dataChecks, h, hlt]

/-- Validation succeeds on a 4-D array with more samples than features. -/
theorem dataChecks_4d (a : NpArray) (x y z c : Nat)
    (h : a.shape = [x, y, z, c]) (hlt : c < x * y * z) :
    dataChecks (.ndarray a) = .ok ⟨[x, y, z, c], 4, x * y * z, c⟩ := by
  simp [dataChecks, h, hlt]

/-- Flattening a 3-D array reshapes to samples by features, keeping the
row-major buffer. -/
theorem dataFlatten_3d (a : NpArray) (x y c : Nat) (h : a.shape = [x, y, c]) :
    dataFlatten a [x, y, c] 3 = .ok ⟨[x * y, c], a.data⟩ := by
  simp [dataFlatten, npReshape, h, mul_assoc]

/-- Flattening a 4-D array reshapes to samples by features, keeping the
row-major buffer. -/
theorem dataFlatten_4d (a : NpArray) (x y z c : Nat) (h : a.shape = [x, y, z, c]) :
    dataFlatten a [x, y, z, c] 4 = .ok ⟨[x * y * z, c], a.data⟩ := by
  simp [dataFlatten, npReshape, h, mul_assoc]

/-- The mean step on a 3-D array: image averages the spectral axis, spectrum
averages the spatial axes innermost-first, both squeezed. -/
theorem dataMean_3d (a : NpArray) (x y c : Nat) (h : a.shape = [x, y, c]) :
    dataMean a 3 =
      .ok (npSqueeze (npMeanAxis a 2),
           npSqueeze (npMeanAxis (npMeanAxis a 1) 0)) := by
  have h2 := npMean_ok a 2 (by simp [h])
  have h1 := npMean_ok a 1 (by simp [h])
  have h0 := npMean_ok (npMeanAxis a 1) 0 (by simp [npMeanAxis_shape, h])
  simp [dataMean, h2, h1, h0]

/-- The mean step on a 4-D array. -/
theorem dataMean_4d (a : NpArray) (x y z c : Nat) (h : a.shape = [x, y, z, c]) :
    dataMean a 4 =
      .ok (npSqueeze (npMeanAxis a 3),
           npSqueeze (npMeanAxis (npMeanAxis (npMeanAxis a 2) 1) 0)) := by
  have h3 := npMean_ok a 3 (by simp [h])
  have h2 := npMean_ok a 2 (by simp [h])
  have h1 := npMean_ok (npMeanAxis a 2) 1 (by simp [npMeanAxis_shape, h])
  have h0 := npMean_ok (npMeanAxis (npMeanAxis a 2) 1) 0
    (by simp [npMeanAxis_shape, h])
  simp [dataMean, h3, h2, h1, h0]

/-- Full run of the constructor on a valid 3-D input whose scale step
succeeded with result A (for scale = false, A is the input itself). -/
theorem processInit_3d (a A : NpArray) (x y c : Nat) (scale : Bool)
    (h : a.shape = [x, y, c]) (hlt : c < x * y)
    (hs : (if scale then dataScale a else .ok a) = .ok A) :
    processInit (.ndarray a) scale =
      .ok ⟨A, [x, y, c], 3, x * y, c, ⟨[x * y, c], A.data⟩,
           npSqueeze (npMeanAxis A 2),
           npSqueeze (npMeanAxis (npMeanAxis A 1) 0)⟩ := by
  have hA : A.shape = [x, y, c] := (scaled_ok_shape a A scale hs).trans h
  simp [processInit, dataChecks_3d a x y c h hlt, hs,
    dataFlatten_3d A x y c hA, dataMean_3d A x y c hA]

/-- Full run of the constructor on a valid 4-D input whose scale step
succeeded with result A. -/
theorem processInit_4d (a A : NpArray) (x y z c : Nat) (scale : Bool)
    (h : a.shape = [x, y, z, c]) (hlt : c < x * y * z)
    (hs : (if scale then dataScale a else .ok a) = .ok A) :
    processInit (.ndarray a) scale =
      .ok ⟨A, [x, y, z, c], 4, x * y * z, c, ⟨[x * y * z, c], A.data⟩,
           npSqueeze (npMeanAxis A 3),
           npSqueeze (npMeanAxis (npMeanAxis (npMeanAxis A 2) 1) 0)⟩ := by
  have hA : A.shape = [x, y, z, c] := (scaled_ok_shape a A scale hs).trans h
  simp [processInit, dataChecks_4d a x y z c h hlt, hs,
    dataFlatten_4d A x y z c hA, dataMean_4d A x y z c hA]

/-- When validation passed but the scale step raises, construction fails
with the scale step's error. -/
theorem processInit_scale_error (a : NpArray) (c : CheckInfo) (e : PyErr)
    (hc : dataChecks (.ndarray a) = .ok c) (hd : dataScale a = .error e) :
    processInit (.ndarray a) true = .error e := by
  simp [processInit, hc, hd]

/-- When the mean step succeeded, the image accessor applied to the full
slice recomputes exactly the precomputed mean image, and the spectrum
accessor recomputes exactly the precomputed mean spectrum. -/
theorem access_full_of_dataMean (a : NpArray) (nd : Nat) (mi ms : NpArray)
    (h : dataMean a nd = .ok (mi, ms)) :
    accessImageGet a nd Idx.full = .ok mi ∧
      accessSpectrumGet a nd Idx.full = .ok ms := by
  by_cases hnd3 : nd = 3
  · subst hnd3
    simp only [dataMean] at h
    cases h2 : npMean a 2 with
    | error e => simp [h2] at h
    | ok mi0 =>
      cases h1 : npMean a 1 with
      | error e => simp [h2, h1] at h
      | ok s1 =>
        cases h0 : npMean s1 0 with
        | error e => simp [h2, h1, h0] at h
        | ok s0 =>
          simp only [h2, h1, h0] at h
          simp at h
          obtain ⟨hmi, hms⟩ := h
          constructor
          · simp [accessImageGet, idxApply, h2, hmi]
          · simp [accessSpectrumGet, idxApply, h1, h0, hms]
  · by_cases hnd4 : nd = 4
    · subst hnd4
      simp only [dataMean] at h
      cases h3 : npMean a 3 with
      | error e => simp [h3] at h
      | ok mi0 =>
        cases h2 : npMean a 2 with
        | error e => simp [h3, h2] at h
        | ok s2 =>
          cases h1 : npMean s2 1 with
          | error e => simp [h3, h2, h1] at h
          | ok s1 =>
            cases h0 : npMean s1 0 with
            | error e => simp [h3, h2, h1, h0] at h
            | ok s0 =>
              simp only [h3, h2, h1, h0] at h
              simp at h
              obtain ⟨hmi, hms⟩ := h
              constructor
              · simp [accessImageGet, idxApply, h3, hmi]
              · simp [accessSpectrumGet, idxApply, h2, h1, h0, hms]
    · simp [dataMean, if_neg hnd3, if_neg hnd4] at h

/-- A successfully constructed object stores exactly the mean pair computed
by the mean step over its own stored array and dimensionality. -/
theorem processInit_ok_dataMean (X : PyInput) (scale : Bool) (p : Process)
    (h : processInit X scale = .ok p) :
    dataMean p.data p.n_dimension = .ok (p.mean_image, p.mean_spectrum) := by
  cases X with
  | pylist => simp [processInit, dataChecks] at h
  | ndarray a0 =>
    cases hc : dataChecks (.ndarray a0) with
    | error e => simp [processInit, hc] at h
    | ok c =>
      simp only [processInit, hc] at h
      cases hs : (if scale then dataScale a0 else Except.ok a0) with
      | error e => simp [hs] at h
      | ok A =>
        simp only [hs] at h
        cases hf : dataFlatten A c.shape c.n_dimension with
        | error e => simp [hf] at h
        | ok fl =>
          cases hm : dataMean A c.n_dimension with
          | error e => simp [hf, hm] at h
          | ok pr =>
            obtain ⟨mi, ms⟩ := pr
            simp only [hf, hm] at h
            simp at h
            cases h
            simpa using hm

/-- C5: for every valid input, indexing the image accessor with the full
slice returns exactly the precomputed mean_image attribute (whenever
construction succeeds; both sides are none when it fails). -/
theorem image_full_slice_eq_mean_image (X : PyInput) (scale : Bool) :
    (processInit X scale).toOption.map
        (fun p => accessImageGet p.data p.n_dimension Idx.full) =
      (processInit X scale).toOption.map (fun p => Except.ok p.mean_image) := by
  cases h : processInit X scale with
  | error e => simp [Except.toOption]
  | ok p =>
    simp only [Except.toOption, Option.map_some]
    exact congrArg some
      (access_full_of_dataMean _ _ _ _ (processInit_ok_dataMean X scale p h)).1

/-- C6: for every valid input, indexing the spectrum accessor with the full
slice returns exactly the precomputed mean_spectrum attribute (whenever
construction succeeds; both sides are none when it fails). -/
theorem spectrum_full_slice_eq_mean_spectrum (X : PyInput) (scale : Bool) :
    (processInit X scale).toOption.map
        (fun p => accessSpectrumGet p.data p.n_dimension Idx.full) =
      (processInit X scale).toOption.map (fun p => Except.ok p.mean_spectrum) := by
  cases h : processInit X scale with
  | error e => simp [Except.toOption]
  | ok p =>
    simp only [Except.toOption, Option.map_some]
    exact congrArg some
      (access_full_of_dataMean _ _ _ _ (processInit_ok_dataMean X scale p h)).2

/-- C10: construction only allocates: every heap cell that existed before the
call is unchanged after it, whether construction succeeds or fails; and with
scaling requested, a successful construction rebinds the stored-data
reference to the freshly allocated scaled array, not the caller's array. -/
theorem construction_preserves_input_store (st : Store) (r : Nat) (scale : Bool)
    (i : Nat) (h : i < st.length) :
    (processInitStore st r scale).1.getD i emptyArr = st.getD i emptyArr ∧
      (scale = true → ∀ refs, (processInitStore st r scale).2 = .ok refs →
        refs.dataRef = st.length) := by
  unfold processInitStore
  cases hc : dataChecks (.ndarray (storeRead st r)) with
  | error e => simp
  | ok c =>
    cases scale with
    | false =>
      simp only [Bool.false_eq_true, if_false]
      cases hf : dataFlatten (storeRead st r) c.shape c.n_dimension with
      | error e => simp [hf]
      | ok fl =>
        cases hm : dataMean (storeRead st r) c.n_dimension with
        | error e =>
          simp only [hf, hm, List.append_assoc]
          exact ⟨List.getD_append _ _ _ _ h, by simp⟩
        | ok pr =>
          simp only [hf, hm, List.append_assoc]
          exact ⟨List.getD_append _ _ _ _ h, by simp⟩
    | true =>
      simp only [if_true]
      cases hd : dataScale (storeRead st r) with
      | error e => simp [hd]
      | ok A =>
        simp only [hd]
        cases hf : dataFlatten (storeRead (st ++ [A]) st.length)
            c.shape c.n_dimension with
        | error e =>
          simp only [hf, List.append_assoc]
          exact ⟨List.getD_append _ _ _ _ h, by simp⟩
        | ok fl =>
          cases hm : dataMean (storeRead (st ++ [A]) st.length)
              c.n_dimension with
          | error e =>
            simp only [hf, hm, List.append_assoc]
            exact ⟨List.getD_append _ _ _ _ h, by simp⟩
          | ok pr =>
            simp only [hf, hm, List.append_assoc]
            refine ⟨List.getD_append _ _ _ _ h, ?_⟩
            intro _ refs hrefs
            simp only [Except.ok.injEq] at hrefs
            subst hrefs
            rfl

/-- C2: every wrapper constructed from a valid 3-D input of shape (x,y,c)
with x*y over c has n_samples = x*y, n_features = c and flat of shape
(x*y, c); every wrapper constructed from a valid 4-D input of shape
(x,y,z,c) with x*y*z over c has n_samples = x*y*z, n_features = c and flat
of shape (x*y*z, c); in both cases flat keeps the row-major buffer of the
stored array unchanged, so the reshape preserves element order with the
spatial axes collapsed row-major into the row dimension.  Construction
itself succeeds whenever scaling is off or the cube has nonzero size
(n_features above 0); with scaling requested on a zero-size cube np.max
raises and no wrapper exists, so the attribute equations hold vacuously
(both sides none). -/
theorem flat_shape_and_order :
    (∀ (a : NpArray) (x y c : Nat) (scale : Bool), a.shape = [x, y, c] → c < x * y →
      (processInit (.ndarray a) scale).toOption.map
          (fun p => (p.n_samples, p.n_features, p.flat.shape)) =
        (processInit (.ndarray a) scale).toOption.map (fun _ => (x * y, c, [x * y, c])) ∧
      (processInit (.ndarray a) scale).toOption.map (fun p => p.flat.data) =
        (processInit (.ndarray a) scale).toOption.map (fun p => p.data.data) ∧
      ((scale = true → 0 < c) →
        (processInit (.ndarray a) scale).toOption.isSome = true)) ∧
    (∀ (a : NpArray) (x y z c : Nat) (scale : Bool), a.shape = [x, y, z, c] → c < x * y * z →
      (processInit (.ndarray a) scale).toOption.map
          (fun p => (p.n_samples, p.n_features, p.flat.shape)) =
        (processInit (.ndarray a) scale).toOption.map (fun _ => (x * y * z, c, [x * y * z, c])) ∧
      (processInit (.ndarray a) scale).toOption.map (fun p => p.flat.data) =
        (processInit (.ndarray a) scale).toOption.map (fun p => p.data.data) ∧
      ((scale = true → 0 < c) →
        (processInit (.ndarray a) scale).toOption.isSome = true)) := by
  constructor
  · intro a x y c scale h hlt
    cases scale with
    | false =>
      rw [processInit_3d a a x y c false h hlt (by simp)]
      simp [Except.toOption]
    | true =>
      cases hd : dataScale a with
      | error e =>
        have hz : a.shape.prod = 0 := by
          by_contra hnz
          rw [dataScale_ok_of_prod a hnz] at hd
          exact absurd hd (by simp)
        rw [processInit_scale_error a _ e (dataChecks_3d a x y c h hlt) hd]
        refine ⟨by simp [Except.toOption], by simp [Except.toOption], ?_⟩
        intro hsc
        exfalso
        have hc0 : 0 < c := hsc rfl
        have hxy : 0 < x * y := lt_of_le_of_lt (Nat.zero_le c) hlt
        have hpos : 0 < x * (y * (c * 1)) := by
          have h1 : x * (y * (c * 1)) = x * y * c := by ring
          rw [h1]
          exact Nat.mul_pos hxy hc0
        rw [h] at hz
        simp only [List.prod_cons, List.prod_nil] at hz
        exact absurd hz (Nat.pos_iff_ne_zero.mp hpos)
      | ok A =>
        rw [processInit_3d a A x y c true h hlt (by simp [hd])]
        simp [Except.toOption]
  · intro a x y z c scale h hlt
    cases scale with
    | false =>
      rw [processInit_4d a a x y z c false h hlt (by simp)]
      simp [Except.toOption]
    | true =>
      cases hd : dataScale a with
      | error e =>
        have hz : a.shape.prod = 0 := by
          by_contra hnz
          rw [dataScale_ok_of_prod a hnz] at hd
          exact absurd hd (by simp)
        rw [processInit_scale_error a _ e (dataChecks_4d a x y z c h hlt) hd]
        refine ⟨by simp [Except.toOption], by simp [Except.toOption], ?_⟩
        intro hsc
        exfalso
        have hc0 : 0 < c := hsc rfl
        have hxyz : 0 < x * y * z := lt_of_le_of_lt (Nat.zero_le c) hlt
        have hpos : 0 < x * (y * (z * (c * 1))) := by
          have h1 : x * (y * (z * (c * 1))) = x * y * z * c := by ring
          rw [h1]
          exact Nat.mul_pos hxyz hc0
        rw [h] at hz
        simp only [List.prod_cons, List.prod_nil] at hz
        exact absurd hz (Nat.pos_iff_ne_zero.mp hpos)
      | ok A =>
        rw [processInit_4d a A x y z c true h hlt (by simp [hd])]
        simp [Except.toOption]

/-- Witness for C2 at concrete 3-D and 4-D inputs. -/
theorem flat_shape_and_order_witness :
    ((processInit (.ndarray ⟨[2,1,1], [1, 2]⟩) false).toOption.map
        (fun p => (p.n_samples, p.n_features, p.flat.shape)) =
      (processInit (.ndarray ⟨[2,1,1], [1, 2]⟩) false).toOption.map
        (fun _ => (2, 1, [2, 1])) ∧
      (processInit (.ndarray ⟨[2,1,1], [1, 2]⟩) false).toOption.map (fun p => p.flat.data) =
        (processInit (.ndarray ⟨[2,1,1], [1, 2]⟩) false).toOption.map (fun p => p.data.data) ∧
      ((false = true → 0 < 1) →
        (processInit (.ndarray ⟨[2,1,1], [1, 2]⟩) false).toOption.isSome = true)) ∧
    ((processInit (.ndarray ⟨[2,1,1,1], [1, 2]⟩) false).toOption.map
        (fun p => (p.n_samples, p.n_features, p.flat.shape)) =
      (processInit (.ndarray ⟨[2,1,1,1], [1, 2]⟩) false).toOption.map
        (fun _ => (2, 1, [2, 1])) ∧
      (processInit (.ndarray ⟨[2,1,1,1], [1, 2]⟩) false).toOption.map (fun p => p.flat.data) =
        (processInit (.ndarray ⟨[2,1,1,1], [1, 2]⟩) false).toOption.map (fun p => p.data.data) ∧
      ((false = true → 0 < 1) →
        (processInit (.ndarray ⟨[2,1,1,1], [1, 2]⟩) false).toOption.isSome = true)) :=
  ⟨flat_shape_and_order.1 ⟨[2,1,1], [1, 2]⟩ 2 1 1 false rfl (by decide),
   flat_shape_and_order.2 ⟨[2,1,1,1], [1, 2]⟩ 2 1 1 1 false rfl (by decide)⟩

/-- C4 (amended): for every wrapper constructed from a valid input, 3-D or
4-D, with n_features not 1, the precomputed mean_spectrum has shape
(n_features,) after the squeeze step; when no wrapper is constructed (the
zero-size scaling raise) both sides are none.  (When n_features = 1 the
squeeze collapses the result to a 0-d scalar instead, see the
counterexample.) -/
theorem mean_spectrum_shape_nonsingleton :
    (∀ (a : NpArray) (x y c : Nat) (scale : Bool),
      a.shape = [x, y, c] → c < x * y → c ≠ 1 →
      (processInit (.ndarray a) scale).toOption.map
          (fun p => (p.mean_spectrum.shape, p.n_features)) =
        (processInit (.ndarray a) scale).toOption.map (fun _ => ([c], c))) ∧
    (∀ (a : NpArray) (x y z c : Nat) (scale : Bool),
      a.shape = [x, y, z, c] → c < x * y * z → c ≠ 1 →
      (processInit (.ndarray a) scale).toOption.map
          (fun p => (p.mean_spectrum.shape, p.n_features)) =
        (processInit (.ndarray a) scale).toOption.map (fun _ => ([c], c))) := by
  constructor
  · intro a x y c scale h hlt hc
    cases scale with
    | false =>
      rw [processInit_3d a a x y c false h hlt (by simp)]
      simp [Except.toOption, npSqueeze, npMeanAxis, h, List.eraseIdx, hc]
    | true =>
      cases hd : dataScale a with
      | error e =>
        rw [processInit_scale_error a _ e (dataChecks_3d a x y c h hlt) hd]
        simp [Except.toOption]
      | ok A =>
        have hA : A.shape = [x, y, c] := (dataScale_ok_shape a A hd).trans h
        rw [processInit_3d a A x y c true h hlt (by simp [hd])]
        simp [Except.toOption, npSqueeze, npMeanAxis, hA, List.eraseIdx, hc]
  · intro a x y z c scale h hlt hc
    cases scale with
    | false =>
      rw [processInit_4d a a x y z c false h hlt (by simp)]
      simp [Except.toOption, npSqueeze, npMeanAxis, h, List.eraseIdx, hc]
    | true =>
      cases hd : dataScale a with
      | error e =>
        rw [processInit_scale_error a _ e (dataChecks_4d a x y z c h hlt) hd]
        simp [Except.toOption]
      | ok A =>
        have hA : A.shape = [x, y, z, c] := (dataScale_ok_shape a A hd).trans h
        rw [processInit_4d a A x y z c true h hlt (by simp [hd])]
        simp [Except.toOption, npSqueeze, npMeanAxis, hA, List.eraseIdx, hc]

/-- Witness for the amended C4 at concrete 3-D and 4-D inputs with two
spectral channels. -/
theorem mean_spectrum_shape_nonsingleton_witness :
    (processInit (.ndarray ⟨[1,3,2], [0,0,0,0,0,0]⟩) false).toOption.map
        (fun p => (p.mean_spectrum.shape, p.n_features)) =
      (processInit (.ndarray ⟨[1,3,2], [0,0,0,0,0,0]⟩) false).toOption.map
        (fun _ => ([2], 2)) ∧
    (processInit (.ndarray ⟨[1,1,3,2], [0,0,0,0,0,0]⟩) false).toOption.map
        (fun p => (p.mean_spectrum.shape, p.n_features)) =
      (processInit (.ndarray ⟨[1,1,3,2], [0,0,0,0,0,0]⟩) false).toOption.map
        (fun _ => ([2], 2)) :=
  ⟨mean_spectrum_shape_nonsingleton.1 ⟨[1,3,2], [0,0,0,0,0,0]⟩ 1 3 2 false rfl
      (by decide) (by decide),
   mean_spectrum_shape_nonsingleton.2 ⟨[1,1,3,2], [0,0,0,0,0,0]⟩ 1 1 3 2 false rfl
      (by decide) (by decide)⟩

/-- C4 counterexample: on the valid 3-D input of shape (2,1,1), where
n_features = 1, the squeeze step collapses mean_spectrum to a 0-d scalar,
so its shape is not (n_features,). -/
theorem mean_spectrum_singleton_counterexample :
    (processInit (PyInput.ndarray ⟨[2,1,1], [1, 2]⟩) false).toOption.map
      (fun p => p.mean_spectrum.shape == [p.n_features]) = some false := by decide

/-- C7 (amended): the spectrum accessor reduces along axis numbers fixed by
the dimensionality of the full cube.  For the full slice it therefore
averages exactly the spatial axes of the sub-array, innermost-first, and
returns a 1-D spectrum of length n_features (when n_features is not 1); for
a single integer index, which drops the leading axis, the same fixed axis
numbers shift onto the spectral axis, so the spectral axis is averaged as
well and the result is a 0-d scalar, not a spectrum. -/
theorem spectrum_accessor_fixed_axes :
    (∀ (a : NpArray) (x y c : Nat), a.shape = [x, y, c] → c ≠ 1 →
      accessSpectrumGet a 3 Idx.full =
          .ok (npSqueeze (npMeanAxis (npMeanAxis a 1) 0)) ∧
        resShape (accessSpectrumGet a 3 Idx.full) = some [c]) ∧
    (∀ (a : NpArray) (x y c i : Nat), a.shape = [x, y, c] → i < x →
      resShape (accessSpectrumGet a 3 (Idx.int i)) = some []) ∧
    (∀ (a : NpArray) (x y z c : Nat), a.shape = [x, y, z, c] → c ≠ 1 →
      accessSpectrumGet a 4 Idx.full =
          .ok (npSqueeze (npMeanAxis (npMeanAxis (npMeanAxis a 2) 1) 0)) ∧
        resShape (accessSpectrumGet a 4 Idx.full) = some [c]) ∧
    (∀ (a : NpArray) (x y z c i : Nat), a.shape = [x, y, z, c] → i < x →
      resShape (accessSpectrumGet a 4 (Idx.int i)) = some []) := by
  refine ⟨?_, ?_, ?_, ?_⟩
  · intro a x y c h hc
    have h1 := npMean_ok a 1 (by simp [h])
    have h0 := npMean_ok (npMeanAxis a 1) 0 (by simp [npMeanAxis_shape, h])
    refine ⟨by simp [accessSpectrumGet, idxApply, h1, h0], ?_⟩
    simp [accessSpectrumGet, idxApply, h1, h0, resShape, npSqueeze,
      npMeanAxis_shape, h, List.eraseIdx, hc]
  · intro a x y c i h hi
    obtain ⟨sh, dat⟩ := a
    simp only [NpArray.shape] at h
    subst h
    simp [accessSpectrumGet, idxApply, hi, npMean, npMeanAxis, npSqueeze,
      resShape, List.eraseIdx]
  · intro a x y z c h hc
    have h2 := npMean_ok a 2 (by simp [h])
    have h1 := npMean_ok (npMeanAxis a 2) 1 (by simp [npMeanAxis_shape, h])
    have h0 := npMean_ok (npMeanAxis (npMeanAxis a 2) 1) 0
      (by simp [npMeanAxis_shape, h])
    refine ⟨by simp [accessSpectrumGet, idxApply, h2, h1, h0], ?_⟩
    simp [accessSpectrumGet, idxApply, h2, h1, h0, resShape, npSqueeze,
      npMeanAxis_shape, h, List.eraseIdx, hc]
  · intro a x y z c i h hi
    obtain ⟨sh, dat⟩ := a
    simp only [NpArray.shape] at h
    subst h
    simp [accessSpectrumGet, idxApply, hi, npMean, npMeanAxis, npSqueeze,
      resShape, List.eraseIdx]

/-- Witness for the amended C7 at concrete 3-D and 4-D cubes. -/
theorem spectrum_accessor_fixed_axes_witness :
    (accessSpectrumGet ⟨[2,2,2], [0,1,2,3,4,5,6,7]⟩ 3 Idx.full =
        .ok (npSqueeze (npMeanAxis (npMeanAxis ⟨[2,2,2], [0,1,2,3,4,5,6,7]⟩ 1) 0)) ∧
      resShape (accessSpectrumGet ⟨[2,2,2], [0,1,2,3,4,5,6,7]⟩ 3 Idx.full) = some [2]) ∧
    resShape (accessSpectrumGet ⟨[2,2,2], [0,1,2,3,4,5,6,7]⟩ 3 (Idx.int 0)) = some [] ∧
    (accessSpectrumGet ⟨[1,1,1,2], [0, 1]⟩ 4 Idx.full =
        .ok (npSqueeze (npMeanAxis (npMeanAxis (npMeanAxis ⟨[1,1,1,2], [0, 1]⟩ 2) 1) 0)) ∧
      resShape (accessSpectrumGet ⟨[1,1,1,2], [0, 1]⟩ 4 Idx.full) = some [2]) ∧
    resShape (accessSpectrumGet ⟨[1,1,1,2], [0, 1]⟩ 4 (Idx.int 0)) = some [] :=
  ⟨spectrum_accessor_fixed_axes.1 ⟨[2,2,2], [0,1,2,3,4,5,6,7]⟩ 2 2 2 rfl (by decide),
   spectrum_accessor_fixed_axes.2.1 ⟨[2,2,2], [0,1,2,3,4,5,6,7]⟩ 2 2 2 0 rfl (by decide),
   spectrum_accessor_fixed_axes.2.2.1 ⟨[1,1,1,2], [0, 1]⟩ 1 1 1 2 rfl (by decide),
   spectrum_accessor_fixed_axes.2.2.2 ⟨[1,1,1,2], [0, 1]⟩ 1 1 1 2 0 rfl (by decide)⟩

/-- C7 counterexample: on the valid cube of shape (2,2,2) built by the
constructor, indexing the spectrum accessor with the integer 0 returns a
0-d scalar (shape ()), not a 1-D spectrum of length n_features = 2: the
accessor averaged the spectral axis along with the spatial one. -/
theorem spectrum_integer_index_counterexample :
    (processInit (PyInput.ndarray ⟨[2,2,2], [0,1,2,3,4,5,6,7]⟩) false).toOption.map
        (fun p => resShape (accessSpectrumGet p.data p.n_dimension (Idx.int 0))) =
      some (some []) ∧
    ¬ ((processInit (PyInput.ndarray ⟨[2,2,2], [0,1,2,3,4,5,6,7]⟩) false).toOption.map
        (fun p => resShape (accessSpectrumGet p.data p.n_dimension (Idx.int 0))) =
      some (some [2])) := by decide

/-- C8 (amended): the image accessor succeeds on rank-preserving index
expressions (the full slice and start-stop slices), averaging the fixed
spectral axis and returning the spatial shape of the slice minus squeezed
singleton axes; but a single integer index drops the leading axis, the
fixed axis number becomes out of bounds, and the accessor fails with an
AxisError instead of returning. -/
theorem image_accessor_slice_rank :
    (∀ (a : NpArray) (x y c : Nat), a.shape = [x, y, c] →
      accessImageGet a 3 Idx.full = .ok (npSqueeze (npMeanAxis a 2)) ∧
        resShape (accessImageGet a 3 Idx.full) =
          some ([x, y].filter (fun s => s ≠ 1))) ∧
    (∀ (a : NpArray) (x y c s t : Nat), a.shape = [x, y, c] →
      resShape (accessImageGet a 3 (Idx.slc s t)) =
        some ([min t x - min s x, y].filter (fun s => s ≠ 1))) ∧
    (∀ (a : NpArray) (x y c i : Nat), a.shape = [x, y, c] → i < x →
      accessImageGet a 3 (Idx.int i) = .error ⟨"AxisError", "axis out of bounds"⟩) ∧
    (∀ (a : NpArray) (x y z c : Nat), a.shape = [x, y, z, c] →
      accessImageGet a 4 Idx.full = .ok (npSqueeze (npMeanAxis a 3)) ∧
        resShape (accessImageGet a 4 Idx.full) =
          some ([x, y, z].filter (fun s => s ≠ 1))) ∧
    (∀ (a : NpArray) (x y z c s t : Nat), a.shape = [x, y, z, c] →
      resShape (accessImageGet a 4 (Idx.slc s t)) =
        some ([min t x - min s x, y, z].filter (fun s => s ≠ 1))) ∧
    (∀ (a : NpArray) (x y z c i : Nat), a.shape = [x, y, z, c] → i < x →
      accessImageGet a 4 (Idx.int i) = .error ⟨"AxisError", "axis out of bounds"⟩) := by
  refine ⟨?_, ?_, ?_, ?_, ?_, ?_⟩
  · intro a x y c h
    have h2 := npMean_ok a 2 (by simp [h])
    refine ⟨by simp [accessImageGet, idxApply, h2], ?_⟩
    simp [accessImageGet, idxApply, h2, resShape, npSqueeze,
      npMeanAxis_shape, h, List.eraseIdx]
  · intro a x y c s t h
    obtain ⟨sh, dat⟩ := a
    simp only [NpArray.shape] at h
    subst h
    simp [accessImageGet, idxApply, npMean, npMeanAxis, npSqueeze, resShape,
      List.eraseIdx]
  · intro a x y c i h hi
    obtain ⟨sh, dat⟩ := a
    simp only [NpArray.shape] at h
    subst h
    simp [accessImageGet, idxApply, hi, npMean]
  · intro a x y z c h
    have h3 := npMean_ok a 3 (by simp [h])
    refine ⟨by simp [accessImageGet, idxApply, h3], ?_⟩
    simp [accessImageGet, idxApply, h3, resShape, npSqueeze,
      npMeanAxis_shape, h, List.eraseIdx]
  · intro a x y z c s t h
    obtain ⟨sh, dat⟩ := a
    simp only [NpArray.shape] at h
    subst h
    simp [accessImageGet, idxApply, npMean, npMeanAxis, npSqueeze, resShape,
      List.eraseIdx]
  · intro a x y z c i h hi
    obtain ⟨sh, dat⟩ := a
    simp only [NpArray.shape] at h
    subst h
    simp [accessImageGet, idxApply, hi, npMean]

/-- Witness for the amended C8 at concrete 3-D and 4-D cubes. -/
theorem image_accessor_slice_rank_witness :
    (accessImageGet ⟨[2,2,2], [0,1,2,3,4,5,6,7]⟩ 3 Idx.full =
        .ok (npSqueeze (npMeanAxis ⟨[2,2,2], [0,1,2,3,4,5,6,7]⟩ 2)) ∧
      resShape (accessImageGet ⟨[2,2,2], [0,1,2,3,4,5,6,7]⟩ 3 Idx.full) =
        some ([2, 2].filter (fun s => s ≠ 1))) ∧
    resShape (accessImageGet ⟨[2,2,2], [0,1,2,3,4,5,6,7]⟩ 3 (Idx.slc 0 1)) =
      some ([min 1 2 - min 0 2, 2].filter (fun s => s ≠ 1)) ∧
    accessImageGet ⟨[2,2,2], [0,1,2,3,4,5,6,7]⟩ 3 (Idx.int 0) =
      .error ⟨"AxisError", "axis out of bounds"⟩ ∧
    (accessImageGet ⟨[1,1,1,2], [0, 1]⟩ 4 Idx.full =
        .ok (npSqueeze (npMeanAxis ⟨[1,1,1,2], [0, 1]⟩ 3)) ∧
      resShape (accessImageGet ⟨[1,1,1,2], [0, 1]⟩ 4 Idx.full) =
        some ([1, 1, 1].filter (fun s => s ≠ 1))) ∧
    resShape (accessImageGet ⟨[1,1,1,2], [0, 1]⟩ 4 (Idx.slc 0 1)) =
      some ([min 1 1 - min 0 1, 1, 1].filter (fun s => s ≠ 1)) ∧
    accessImageGet ⟨[1,1,1,2], [0, 1]⟩ 4 (Idx.int 0) =
      .error ⟨"AxisError", "axis out of bounds"⟩ :=
  ⟨image_accessor_slice_rank.1 ⟨[2,2,2], [0,1,2,3,4,5,6,7]⟩ 2 2 2 rfl,
   image_accessor_slice_rank.2.1 ⟨[2,2,2], [0,1,2,3,4,5,6,7]⟩ 2 2 2 0 1 rfl,
   image_accessor_slice_rank.2.2.1 ⟨[2,2,2], [0,1,2,3,4,5,6,7]⟩ 2 2 2 0 rfl (by decide),
   image_accessor_slice_rank.2.2.2.1 ⟨[1,1,1,2], [0, 1]⟩ 1 1 1 2 rfl,
   image_accessor_slice_rank.2.2.2.2.1 ⟨[1,1,1,2], [0, 1]⟩ 1 1 1 2 0 1 rfl,
   image_accessor_slice_rank.2.2.2.2.2 ⟨[1,1,1,2], [0, 1]⟩ 1 1 1 2 0 rfl (by decide)⟩

/-- C8 counterexample: on the valid cube of shape (2,2,2) built by the
constructor, indexing the image accessor with the integer 0 (a rank-reducing
index numpy accepts) raises an AxisError rather than returning an array. -/
theorem image_integer_index_counterexample :
    (processInit (PyInput.ndarray ⟨[2,2,2], [0,1,2,3,4,5,6,7]⟩) false).toOption.map
        (fun p => errKind (accessImageGet p.data p.n_dimension (Idx.int 0))) =
      some (some "AxisError") := by decide

/-- C3 (amended): all three validation failure modes of construction raise
the same exception kind, the Python builtin TypeError, distinguished only by
message: non-array input, rank outside 3 and 4, and samples not greater
than features (3-D and 4-D). -/
theorem validation_errors_same_kind :
    dataChecks PyInput.pylist =
        .error ⟨"TypeError", "Data must be a numpy array"⟩ ∧
    (∀ a : NpArray, a.shape.length ≠ 3 → a.shape.length ≠ 4 →
      dataChecks (.ndarray a) =
        .error ⟨"TypeError", "Data must be 3- or 4- dimensional."⟩) ∧
    (∀ (a : NpArray) (x y c : Nat), a.shape = [x, y, c] → x * y ≤ c →
      dataChecks (.ndarray a) =
        .error ⟨"TypeError",
          "The number of samples must be greater than the number of features"⟩) ∧
    (∀ (a : NpArray) (x y z c : Nat), a.shape = [x, y, z, c] → x * y * z ≤ c →
      dataChecks (.ndarray a) =
        .error ⟨"TypeError",
          "The number of samples must be greater than the number of features"⟩) := by
  refine ⟨rfl, ?_, ?_, ?_⟩
  · intro a h3 h4
    simp [dataChecks, h3, h4]
  · intro a x y c h hle
    have hngt : ¬ (x * y > c) := by omega
    simp [dataChecks, h, hngt]
  · intro a x y z c h hle
    have hngt : ¬ (x * y * z > c) := by omega
    simp [dataChecks, h, hngt]

/-- Witness for the amended C3 at a 2-D array, a too-small 3-D shape and a
too-small 4-D shape. -/
theorem validation_errors_same_kind_witness :
    dataChecks (.ndarray ⟨[2,2], [0,0,0,0]⟩) =
        .error ⟨"TypeError", "Data must be 3- or 4- dimensional."⟩ ∧
    dataChecks (.ndarray ⟨[2,2,10], []⟩) =
        .error ⟨"TypeError",
          "The number of samples must be greater than the number of features"⟩ ∧
    dataChecks (.ndarray ⟨[1,2,2,10], []⟩) =
        .error ⟨"TypeError",
          "The number of samples must be greater than the number of features"⟩ :=
  ⟨validation_errors_same_kind.2.1 ⟨[2,2], [0,0,0,0]⟩ (by decide) (by decide),
   validation_errors_same_kind.2.2.1 ⟨[2,2,10], []⟩ 2 2 10 rfl (by decide),
   validation_errors_same_kind.2.2.2 ⟨[1,2,2,10], []⟩ 1 2 2 10 rfl (by decide)⟩

/-- C3 counterexample: the error raised for a non-array input and the error
raised for a 2-D array have the same exception kind, TypeError; the code
does not use two distinct error kinds. -/
theorem validation_error_kinds_counterexample :
    errKind (dataChecks PyInput.pylist) = some "TypeError" ∧
    errKind (dataChecks (PyInput.ndarray ⟨[2,2], [0,0,0,0]⟩)) = some "TypeError" ∧
    errKind (dataChecks PyInput.pylist) =
      errKind (dataChecks (PyInput.ndarray ⟨[2,2], [0,0,0,0]⟩)) := by decide

/-- C9 counterexample: the valid-shaped zero-size input (1,1,0) passes
validation (samples 1 over features 0), and construction with scale on then
fails with the ValueError raised by np.max inside the scaling step: a
construction failure that does not occur during validation. -/
theorem construction_post_validation_failure_counterexample :
    dataChecks (.ndarray ⟨[1,1,0], []⟩) = .ok ⟨[1,1,0], 3, 1, 0⟩ ∧
    processInit (.ndarray ⟨[1,1,0], []⟩) true =
      .error ⟨"ValueError",
        "zero-size array to reduction operation maximum which has no identity"⟩ :=
  ⟨rfl, rfl⟩

/-- C9 (amended): construction has exactly two failure points, both before
any flat matrix, means or accessors are produced.  A validation failure
aborts construction immediately with that same error, before scaling,
flattening, mean-reduction or accessor binding.  The only other failure is
the scaling step: with scale on and a validated zero-size array (n_features
equal 0), np.max raises ValueError and construction aborts there.  On every
valid shape with scaling off or nonzero features, construction succeeds, so
no later stage ever fails. -/
theorem construction_failures_located :
    (∀ (X : PyInput) (scale : Bool) (e : PyErr),
      dataChecks X = .error e → processInit X scale = .error e) ∧
    (∀ (a : NpArray) (x y c : Nat), a.shape = [x, y, c] → c < x * y → c = 0 →
      processInit (.ndarray a) true =
        .error ⟨"ValueError",
          "zero-size array to reduction operation maximum which has no identity"⟩) ∧
    (∀ (a : NpArray) (x y z c : Nat), a.shape = [x, y, z, c] → c < x * y * z → c = 0 →
      processInit (.ndarray a) true =
        .error ⟨"ValueError",
          "zero-size array to reduction operation maximum which has no identity"⟩) ∧
    (∀ (a : NpArray) (x y c : Nat) (scale : Bool), a.shape = [x, y, c] → c < x * y →
      (scale = true → 0 < c) →
      (processInit (.ndarray a) scale).toOption.isSome = true) ∧
    (∀ (a : NpArray) (x y z c : Nat) (scale : Bool), a.shape = [x, y, z, c] → c < x * y * z →
      (scale = true → 0 < c) →
      (processInit (.ndarray a) scale).toOption.isSome = true) := by
  refine ⟨?_, ?_, ?_, ?_, ?_⟩
  · intro X scale e h
    simp [processInit, h]
  · intro a x y c h hlt hc
    subst hc
    have hz : a.shape.prod = 0 := by rw [h]; simp
    exact processInit_scale_error a _ _ (dataChecks_3d a x y 0 h hlt)
      (dataScale_error_of_zero a hz)
  · intro a x y z c h hlt hc
    subst hc
    have hz : a.shape.prod = 0 := by rw [h]; simp
    exact processInit_scale_error a _ _ (dataChecks_4d a x y z 0 h hlt)
      (dataScale_error_of_zero a hz)
  · intro a x y c scale h hlt hsc
    cases scale with
    | false =>
      rw [processInit_3d a a x y c false h hlt (by simp)]
      simp [Except.toOption]
    | true =>
      have hc0 : 0 < c := hsc rfl
      have hxy : 0 < x * y := lt_of_le_of_lt (Nat.zero_le c) hlt
      have hnz : a.shape.prod ≠ 0 := by
        rw [h]
        simp only [List.prod_cons, List.prod_nil]
        have h1 : x * (y * (c * 1)) = x * y * c := by ring
        rw [h1]
        exact Nat.pos_iff_ne_zero.mp (Nat.mul_pos hxy hc0)
      rw [processInit_3d a ⟨a.shape, a.data.map (fun v => v / |listMax a.data|)⟩ x y c true
        h hlt (by simp [dataScale_ok_of_prod a hnz])]
      simp [Except.toOption]
  · intro a x y z c scale h hlt hsc
    cases scale with
    | false =>
      rw [processInit_4d a a x y z c false h hlt (by simp)]
      simp [Except.toOption]
    | true =>
      have hc0 : 0 < c := hsc rfl
      have hxyz : 0 < x * y * z := lt_of_le_of_lt (Nat.zero_le c) hlt
      have hnz : a.shape.prod ≠ 0 := by
        rw [h]
        simp only [List.prod_cons, List.prod_nil]
        have h1 : x * (y * (z * (c * 1))) = x * y * z * c := by ring
        rw [h1]
        exact Nat.pos_iff_ne_zero.mp (Nat.mul_pos hxyz hc0)
      rw [processInit_4d a ⟨a.shape, a.data.map (fun v => v / |listMax a.data|)⟩ x y z c true
        h hlt (by simp [dataScale_ok_of_prod a hnz])]
      simp [Except.toOption]

/-- Witness for the amended C9: a validation failure, a post-validation
scaling failure, and a successful scaled construction. -/
theorem construction_failures_located_witness :
    processInit PyInput.pylist true =
      .error ⟨"TypeError", "Data must be a numpy array"⟩ ∧
    processInit (.ndarray ⟨[1,1,0], []⟩) true =
      .error ⟨"ValueError",
        "zero-size array to reduction operation maximum which has no identity"⟩ ∧
    (processInit (.ndarray ⟨[2,1,1], [1, 2]⟩) true).toOption.isSome = true :=
  ⟨construction_failures_located.1 PyInput.pylist true _ rfl,
   construction_failures_located.2.1 ⟨[1,1,0], []⟩ 1 1 0 rfl (by decide) rfl,
   construction_failures_located.2.2.2.1 ⟨[2,1,1], [1, 2]⟩ 2 1 1 true rfl
     (by decide) (by decide)⟩

/-- C1 (code bug evidence): scaling divides by the absolute value of the
maximum element, abs(max X) = 2, not by the maximum absolute value
max(abs X) = 5: on the valid input with buffer (-5, 2) the source produces
(-5/2, 1), which leaves the documented (-1, 1) range, while the spec's
division by the max-abs value would produce (-1, 2/5). -/
theorem scale_divides_by_abs_of_max :
    (dataScale ⟨[2,1,1], [-5, 2]⟩).toOption.map NpArray.data = some [-5/2, 1] ∧
    (specScaleMaxAbs ⟨[2,1,1], [-5, 2]⟩).data = [-1, 2/5] ∧
    (dataScale ⟨[2,1,1], [-5, 2]⟩).toOption.map NpArray.data ≠
      some ((specScaleMaxAbs ⟨[2,1,1], [-5, 2]⟩).data) ∧
    (dataScale ⟨[2,1,1], [-5, 2]⟩).toOption.map NpArray.shape = some [2,1,1] := by
  have hd : dataScale ⟨[2,1,1], [-5, 2]⟩ =
      .ok ⟨[2,1,1], ([-5, 2] : List ℚ).map (fun v => v / |listMax [-5, 2]|)⟩ :=
    dataScale_ok_of_prod _ (by decide)
  rw [hd]
  refine ⟨?_, ?_, ?_, rfl⟩ <;>
    norm_num [Except.toOption, specScaleMaxAbs, listMax, maxAbsList, max_def,
      abs_of_pos, abs_of_nonneg]

/-- Witness for C10 at a one-array heap with scaling requested. -/
theorem construction_preserves_input_store_witness :
    (processInitStore [(⟨[2,1,1], [1, 2]⟩ : NpArray)] 0 true).1.getD 0 emptyArr =
        [(⟨[2,1,1], [1, 2]⟩ : NpArray)].getD 0 emptyArr ∧
      (true = true → ∀ refs,
        (processInitStore [(⟨[2,1,1], [1, 2]⟩ : NpArray)] 0 true).2 = .ok refs →
        refs.dataRef = 1) :=
  construction_preserves_input_store [⟨[2,1,1], [1, 2]⟩] 0 true 0 (by decide)
